import Mathlib

/-!
Verification of the task-management client state logic
(`src/store/slices/tasksSlice.js`) and the list view (`TaskList`).

The slice owns `{ tasks, loading, error }` and reacts to the
pending/fulfilled/rejected outcomes of five asynchronous operations
(fetch, add, update, toggle, delete) plus the synchronous `clearError`.
We embed the reducer as a total function on the slice state over an
inductive type of actions, one constructor per `addCase` in the source,
and the thunk catch-clauses as string-extraction functions.
-/

namespace K8Todo

/-- A task record as the client stores it.  The JS objects carry
`_id`, `title`, `description`, `completed`, `createdAt`, `updatedAt`;
the reducers inspect only `_id` and the list view only `completed`. -/
structure Task where
  _id : String
  title : String
  description : String
  completed : Bool
  createdAt : String
  updatedAt : String
deriving DecidableEq

/-- The slice state: `initialState` in the source is
`{ tasks: [], loading: false, error: null }`. -/
structure SliceState where
  tasks : List Task
  loading : Bool
  error : Option String
deriving DecidableEq

/-- `initialState` of the slice. -/
def initialState : SliceState :=
  { tasks := [], loading := false, error := none }

/-- Embedding of the JS expression `x || dflt` for `x` a string field
that may be absent (`error.response?.data?.message`): JS `||` yields
the right operand whenever the left is falsy, and the falsy strings
are exactly `""` (an absent field is `undefined`, also falsy). -/
def jsOrDefault (x : Option String) (dflt : String) : String :=
  match x with
  | some m => if m = "" then dflt else m
  | none => dflt

/-- Catch clause of the `fetchTasks` thunk:
`rejectWithValue(error.response?.data?.message || 'Failed to fetch tasks')`. -/
def fetchTasksRejectValue (respMessage : Option String) : String :=
  jsOrDefault respMessage "Failed to fetch tasks"

/-- Catch clause of the `addTask` thunk. -/
def addTaskRejectValue (respMessage : Option String) : String :=
  jsOrDefault respMessage "Failed to add task"

/-- Catch clause of the `updateTask` thunk. -/
def updateTaskRejectValue (respMessage : Option String) : String :=
  jsOrDefault respMessage "Failed to update task"

/-- Catch clause of the `toggleTask` thunk. -/
def toggleTaskRejectValue (respMessage : Option String) : String :=
  jsOrDefault respMessage "Failed to toggle task"

/-- Catch clause of the `deleteTask` thunk. -/
def deleteTaskRejectValue (respMessage : Option String) : String :=
  jsOrDefault respMessage "Failed to delete task"

/-- One constructor per action the slice reducer handles: the
synchronous `clearError` and, for each of the five thunks, the
`pending`, `fulfilled` and `rejected` cases registered in
`extraReducers`.  Fulfilled payloads are what the thunks return
(the task array for fetch, the server record for add/update/toggle,
the echoed id for delete); rejected payloads are the strings produced
by `rejectWithValue`. -/
inductive Action where
  | clearError
  | fetchTasksPending
  | fetchTasksFulfilled (payload : List Task)
  | fetchTasksRejected (payload : String)
  | addTaskPending
  | addTaskFulfilled (payload : Task)
  | addTaskRejected (payload : String)
  | updateTaskPending
  | updateTaskFulfilled (payload : Task)
  | updateTaskRejected (payload : String)
  | toggleTaskPending
  | toggleTaskFulfilled (payload : Task)
  | toggleTaskRejected (payload : String)
  | deleteTaskPending
  | deleteTaskFulfilled (payload : String)
  | deleteTaskRejected (payload : String)
deriving DecidableEq

/-- Body shared verbatim by `updateTask.fulfilled` and
`toggleTask.fulfilled` (lines 114–117 and 130–133):
`const index = state.tasks.findIndex(task => task._id === action.payload._id);
 if (index !== -1) { state.tasks[index] = action.payload; }`. -/
def replaceById (tasks : List Task) (payload : Task) : List Task :=
  match tasks.findIdx? (fun task => task._id == payload._id) with
  | some index => tasks.set index payload
  | none => tasks

/-- The slice reducer: each branch is the body of the corresponding
`reducers`/`extraReducers` case in the source. -/
def tasksReducer (state : SliceState) (action : Action) : SliceState :=
  match action with
  | .clearError =>
      { state with error := none }
  | .fetchTasksPending =>
      { state with loading := true, error := none }
  | .fetchTasksFulfilled payload =>
      { state with loading := false, tasks := payload }
  | .fetchTasksRejected payload =>
      { state with loading := false, error := some payload }
  | .addTaskPending =>
      { state with loading := true, error := none }
  | .addTaskFulfilled payload =>
      { state with loading := false, tasks := payload :: state.tasks }
  | .addTaskRejected payload =>
      { state with loading := false, error := some payload }
  | .updateTaskPending =>
      { state with loading := true, error := none }
  | .updateTaskFulfilled payload =>
      { state with loading := false, tasks := replaceById state.tasks payload }
  | .updateTaskRejected payload =>
      { state with loading := false, error := some payload }
  | .toggleTaskPending =>
      { state with loading := true, error := none }
  | .toggleTaskFulfilled payload =>
      { state with loading := false, tasks := replaceById state.tasks payload }
  | .toggleTaskRejected payload =>
      { state with loading := false, error := some payload }
  | .deleteTaskPending =>
      { state with loading := true, error := none }
  | .deleteTaskFulfilled payload =>
      { state with
        loading := false
        tasks := state.tasks.filter (fun task => task._id != payload) }
  | .deleteTaskRejected payload =>
      { state with loading := false, error := some payload }

/-- One rendered section of the list view: its `h2` title and the task
rows inside it. -/
structure TaskSection where
  title : String
  rows : List Task
deriving DecidableEq

/-- The four mutually exclusive things `TaskList` can render. -/
inductive RenderResult where
  | spinner
  | errorText (msg : String)
  | emptyState
  | sections (secs : List TaskSection)
deriving DecidableEq

/-- The non-loading, non-error tail of `TaskList`: empty-state check,
then the partition into `pendingTasks`/`completedTasks` with a section
per non-empty group, pending first, each title carrying the group
count. -/
def renderTaskBody (tasks : List Task) : RenderResult :=
  if tasks.length = 0 then RenderResult.emptyState
  else
    let completedTasks := tasks.filter (fun task => task.completed)
    let pendingTasks := tasks.filter (fun task => !task.completed)
    RenderResult.sections
      ((if pendingTasks.length > 0 then
          [{ title := "Pending Tasks (" ++ toString pendingTasks.length ++ ")"
             rows := pendingTasks }]
        else []) ++
       (if completedTasks.length > 0 then
          [{ title := "Completed Tasks (" ++ toString completedTasks.length ++ ")"
             rows := completedTasks }]
        else []))

/-- The `TaskList` component's render decision.  `if (loading)` guards
first; `if (error)` is a JS truthiness test on a string-or-null, so it
fires only when the error is present AND non-empty (the empty string is
falsy in JS); then the empty check and the partition. -/
def renderTaskList (state : SliceState) : RenderResult :=
  if state.loading then RenderResult.spinner
  else
    match state.error with
    | some e => if e = "" then renderTaskBody state.tasks else RenderResult.errorText e
    | none => renderTaskBody state.tasks

/-! ## Helper lemmas about the list operations of the reducer -/

theorem replaceById_nil (p : Task) : replaceById [] p = [] := rfl

theorem replaceById_cons (t : Task) (ts : List Task) (p : Task) :
    replaceById (t :: ts) p =
      if t._id == p._id then p :: ts else t :: replaceById ts p := by
  unfold replaceById
  rw [List.findIdx?_cons]
  by_cases h : t._id == p._id
  · simp [h]
  · simp only [h, if_neg, Bool.false_eq_true, not_false_iff, if_false]
    cases hfi : List.findIdx? (fun task => task._id == p._id) ts with
    | none => simp [hfi]
    | some i => simp [hfi]

theorem replaceById_of_not_mem (l : List Task) (p : Task)
    (h : p._id ∉ l.map Task._id) : replaceById l p = l := by
  induction l with
  | nil => rfl
  | cons a l ih =>
    simp only [List.map_cons, List.mem_cons, not_or] at h
    rw [replaceById_cons]
    have : (a._id == p._id) = false := by
      simp [beq_eq_false_iff_ne]
      intro he
      exact h.1 he.symm
    rw [this]
    simp [ih h.2]

theorem replaceById_first (l1 : List Task) (t : Task) (l2 : List Task) (p : Task)
    (ht : t._id = p._id) (hl1 : p._id ∉ l1.map Task._id) :
    replaceById (l1 ++ t :: l2) p = l1 ++ p :: l2 := by
  induction l1 with
  | nil =>
    simp only [List.nil_append]
    rw [replaceById_cons]
    simp [ht]
  | cons a l1 ih =>
    simp only [List.map_cons, List.mem_cons, not_or] at hl1
    simp only [List.cons_append]
    rw [replaceById_cons]
    have : (a._id == p._id) = false := by
      simp [beq_eq_false_iff_ne]
      intro he
      exact hl1.1 he.symm
    rw [this]
    simp [ih hl1.2]

theorem filter_ne_of_not_mem (l : List Task) (tid : String)
    (h : tid ∉ l.map Task._id) :
    l.filter (fun task => task._id != tid) = l := by
  refine List.filter_eq_self.mpr ?_
  intro a ha
  simp only [bne_iff_ne, ne_eq]
  intro he
  exact h (List.mem_map.mpr ⟨a, ha, he⟩)

theorem exists_first_decomp (l : List Task) (tid : String)
    (hmem : tid ∈ l.map Task._id) :
    ∃ l1 t l2, l = l1 ++ t :: l2 ∧ t._id = tid ∧ tid ∉ l1.map Task._id := by
  induction l with
  | nil => simp at hmem
  | cons a l ih =>
    by_cases ha : a._id = tid
    · exact ⟨[], a, l, by simp, ha, by simp⟩
    · have : tid ∈ l.map Task._id := by
        simp only [List.map_cons, List.mem_cons] at hmem
        exact hmem.resolve_left (fun he => ha he.symm)
      obtain ⟨l1, t, l2, hdec, hid, hnm⟩ := ih this
      refine ⟨a :: l1, t, l2, by simp [hdec], hid, ?_⟩
      simp only [List.map_cons, List.mem_cons, not_or]
      exact ⟨fun he => ha he.symm, hnm⟩

/-! ## Claims -/

/-- Claim C2: every fulfilled create inserts the returned record at the
front of the list (all previous entries shifted back, otherwise
unchanged), so after any sequence of fulfilled creates ending in the
create of `p`, the list's first element is `p`, the most recently
created task. -/
theorem claim_C2_create_prepends (st : SliceState) (p : Task) (ps : List Task) :
    (tasksReducer st (Action.addTaskFulfilled p)).tasks = p :: st.tasks ∧
    (List.foldl (fun s q => tasksReducer s (Action.addTaskFulfilled q)) st
        (ps ++ [p])).tasks.head? = some p := by
  refine ⟨rfl, ?_⟩
  rw [List.foldl_append]
  rfl

/-- Claim C3: the pending transition of each of the five asynchronous
operations sets the error slot to `none`, whatever the state held
before. -/
theorem claim_C3_pending_clears_error (st : SliceState) :
    (tasksReducer st Action.fetchTasksPending).error = none ∧
    (tasksReducer st Action.addTaskPending).error = none ∧
    (tasksReducer st Action.updateTaskPending).error = none ∧
    (tasksReducer st Action.toggleTaskPending).error = none ∧
    (tasksReducer st Action.deleteTaskPending).error = none :=
  ⟨rfl, rfl, rfl, rfl, rfl⟩

/-- Claim C5: each of the five rejected transitions leaves the task
list exactly as it was, records the error message, and resets the
loading flag. -/
theorem claim_C5_rejected_atomicity (st : SliceState) (msg : String) :
    ((tasksReducer st (Action.fetchTasksRejected msg)).tasks = st.tasks ∧
     (tasksReducer st (Action.fetchTasksRejected msg)).loading = false ∧
     (tasksReducer st (Action.fetchTasksRejected msg)).error = some msg) ∧
    ((tasksReducer st (Action.addTaskRejected msg)).tasks = st.tasks ∧
     (tasksReducer st (Action.addTaskRejected msg)).loading = false ∧
     (tasksReducer st (Action.addTaskRejected msg)).error = some msg) ∧
    ((tasksReducer st (Action.updateTaskRejected msg)).tasks = st.tasks ∧
     (tasksReducer st (Action.updateTaskRejected msg)).loading = false ∧
     (tasksReducer st (Action.updateTaskRejected msg)).error = some msg) ∧
    ((tasksReducer st (Action.toggleTaskRejected msg)).tasks = st.tasks ∧
     (tasksReducer st (Action.toggleTaskRejected msg)).loading = false ∧
     (tasksReducer st (Action.toggleTaskRejected msg)).error = some msg) ∧
    ((tasksReducer st (Action.deleteTaskRejected msg)).tasks = st.tasks ∧
     (tasksReducer st (Action.deleteTaskRejected msg)).loading = false ∧
     (tasksReducer st (Action.deleteTaskRejected msg)).error = some msg) :=
  ⟨⟨rfl, rfl, rfl⟩, ⟨rfl, rfl, rfl⟩, ⟨rfl, rfl, rfl⟩, ⟨rfl, rfl, rfl⟩,
   ⟨rfl, rfl, rfl⟩⟩

/-- Claim C8: `clearError` sets the error slot to `none` and changes
nothing else; it is idempotent, and a no-op when the error is already
empty. -/
theorem claim_C8_clearError_idempotent (st : SliceState) :
    (tasksReducer st Action.clearError).error = none ∧
    (tasksReducer st Action.clearError).tasks = st.tasks ∧
    (tasksReducer st Action.clearError).loading = st.loading ∧
    tasksReducer (tasksReducer st Action.clearError) Action.clearError =
      tasksReducer st Action.clearError ∧
    (st.error = none → tasksReducer st Action.clearError = st) := by
  refine ⟨rfl, rfl, rfl, rfl, ?_⟩
  intro h
  cases st with
  | mk tasks loading error =>
    cases h
    rfl

/-- Witness for claim C8: at a concrete state whose error is already
empty, `clearError` is literally the identity. -/
theorem claim_C8_clearError_idempotent_witness :
    tasksReducer initialState Action.clearError = initialState :=
  (claim_C8_clearError_idempotent initialState).2.2.2.2 rfl

/-- A concrete task, for witness states. -/
def sampleTask (i : String) (c : Bool) : Task :=
  { _id := i, title := "t", description := "", completed := c,
    createdAt := "", updatedAt := "" }

/-- Claim C1: a fulfilled delete removes exactly one entry — the entry
whose identifier equals the dispatched identifier — and leaves the
relative order of the remaining entries unchanged, provided the
identifier occurs in the list and identifiers are unique within it. -/
theorem claim_C1_delete_removes_exactly_one (st : SliceState) (tid : String)
    (l1 : List Task) (t : Task) (l2 : List Task)
    (hnd : (st.tasks.map Task._id).Nodup)
    (hdec : st.tasks = l1 ++ t :: l2) (hid : t._id = tid) :
    (tasksReducer st (Action.deleteTaskFulfilled tid)).tasks = l1 ++ l2 ∧
    (tasksReducer st (Action.deleteTaskFulfilled tid)).tasks.length + 1 =
      st.tasks.length := by
  subst hid
  rw [hdec] at hnd
  simp only [List.map_append, List.map_cons] at hnd
  rw [List.nodup_append] at hnd
  obtain ⟨h1, h2, hdisj⟩ := hnd
  have ht2 : t._id ∉ l2.map Task._id := (List.nodup_cons.mp h2).1
  have ht1 : t._id ∉ l1.map Task._id := fun hm => hdisj hm (List.mem_cons_self _ _)
  have key : (tasksReducer st (Action.deleteTaskFulfilled t._id)).tasks = l1 ++ l2 := by
    simp only [tasksReducer]
    rw [hdec, List.filter_append, filter_ne_of_not_mem l1 t._id ht1, List.filter_cons]
    have hpt : (t._id != t._id) = false := by simp
    rw [hpt]
    simp [filter_ne_of_not_mem l2 t._id ht2]
  refine ⟨key, ?_⟩
  rw [key, hdec]
  simp only [List.length_append, List.length_cons]
  omega

/-- Witness for claim C1: deleting "a" from a two-task list with unique
identifiers removes exactly the matching first task. -/
theorem claim_C1_delete_removes_exactly_one_witness :
    (tasksReducer ⟨[sampleTask "a" false, sampleTask "b" true], false, none⟩
        (Action.deleteTaskFulfilled "a")).tasks = [] ++ [sampleTask "b" true] ∧
    (tasksReducer ⟨[sampleTask "a" false, sampleTask "b" true], false, none⟩
        (Action.deleteTaskFulfilled "a")).tasks.length + 1 =
      (⟨[sampleTask "a" false, sampleTask "b" true], false, none⟩ : SliceState).tasks.length :=
  claim_C1_delete_removes_exactly_one
    ⟨[sampleTask "a" false, sampleTask "b" true], false, none⟩ "a"
    [] (sampleTask "a" false) [sampleTask "b" true]
    (by decide) (by decide) (by decide)

/-- Claim C6: a fulfilled update or toggle whose returned record
carries an identifier not present in the list leaves the list
completely unchanged (no insertion); when the identifier is present
(identifiers unique), the matching entry is replaced in place by the
returned record and every other entry and the order stay unchanged. -/
theorem claim_C6_update_toggle_frame (st : SliceState) (p : Task) :
    (p._id ∉ st.tasks.map Task._id →
      (tasksReducer st (Action.updateTaskFulfilled p)).tasks = st.tasks ∧
      (tasksReducer st (Action.toggleTaskFulfilled p)).tasks = st.tasks) ∧
    (∀ l1 t l2, (st.tasks.map Task._id).Nodup → st.tasks = l1 ++ t :: l2 →
      t._id = p._id →
      (tasksReducer st (Action.updateTaskFulfilled p)).tasks = l1 ++ p :: l2 ∧
      (tasksReducer st (Action.toggleTaskFulfilled p)).tasks = l1 ++ p :: l2) := by
  constructor
  · intro hnm
    have key : replaceById st.tasks p = st.tasks := replaceById_of_not_mem _ _ hnm
    exact ⟨by simp only [tasksReducer]; exact key, by simp only [tasksReducer]; exact key⟩
  · intro l1 t l2 hnd hdec hid
    rw [hdec] at hnd
    simp only [List.map_append, List.map_cons] at hnd
    rw [List.nodup_append] at hnd
    obtain ⟨h1, h2, hdisj⟩ := hnd
    have ht1 : p._id ∉ l1.map Task._id := by
      rw [← hid]
      exact fun hm => hdisj hm (List.mem_cons_self _ _)
    have key : replaceById st.tasks p = l1 ++ p :: l2 := by
      rw [hdec]
      exact replaceById_first l1 t l2 p hid ht1
    exact ⟨by simp only [tasksReducer]; exact key, by simp only [tasksReducer]; exact key⟩

/-- Witness for claim C6: an update whose record id "c" is absent
leaves the one-task list unchanged; an update whose record id "a" is
present replaces the first (and only) matching entry in place. -/
theorem claim_C6_update_toggle_frame_witness :
    ((tasksReducer ⟨[sampleTask "a" false], false, none⟩
        (Action.updateTaskFulfilled (sampleTask "c" true))).tasks = [sampleTask "a" false] ∧
     (tasksReducer ⟨[sampleTask "a" false], false, none⟩
        (Action.toggleTaskFulfilled (sampleTask "c" true))).tasks = [sampleTask "a" false]) ∧
    ((tasksReducer ⟨[sampleTask "a" false, sampleTask "b" true], false, none⟩
        (Action.updateTaskFulfilled (sampleTask "a" true))).tasks =
          [] ++ sampleTask "a" true :: [sampleTask "b" true] ∧
     (tasksReducer ⟨[sampleTask "a" false, sampleTask "b" true], false, none⟩
        (Action.toggleTaskFulfilled (sampleTask "a" true))).tasks =
          [] ++ sampleTask "a" true :: [sampleTask "b" true]) :=
  ⟨(claim_C6_update_toggle_frame ⟨[sampleTask "a" false], false, none⟩
      (sampleTask "c" true)).1 (by decide),
   (claim_C6_update_toggle_frame ⟨[sampleTask "a" false, sampleTask "b" true], false, none⟩
      (sampleTask "a" true)).2 [] (sampleTask "a" false) [sampleTask "b" true]
      (by decide) (by decide) (by decide)⟩

/-- Claim C9 (implicit): when duplicate identifiers violate the
uniqueness invariant, a fulfilled update or toggle replaces only the
first entry whose identifier matches (every later duplicate stays in
place verbatim), whereas a fulfilled delete removes every matching
entry: no entry with the dispatched identifier survives, while every
entry with a different identifier is kept. -/
theorem claim_C9_duplicate_ids (st : SliceState) (p : Task) (l1 : List Task)
    (t : Task) (l2 : List Task) (tid : String)
    (hdec : st.tasks = l1 ++ t :: l2) (hid : t._id = p._id)
    (hfirst : p._id ∉ l1.map Task._id) :
    (tasksReducer st (Action.updateTaskFulfilled p)).tasks = l1 ++ p :: l2 ∧
    (tasksReducer st (Action.toggleTaskFulfilled p)).tasks = l1 ++ p :: l2 ∧
    (∀ x ∈ (tasksReducer st (Action.deleteTaskFulfilled tid)).tasks, x._id ≠ tid) ∧
    (∀ x ∈ st.tasks, x._id ≠ tid →
      x ∈ (tasksReducer st (Action.deleteTaskFulfilled tid)).tasks) := by
  have key : replaceById st.tasks p = l1 ++ p :: l2 := by
    rw [hdec]
    exact replaceById_first l1 t l2 p hid hfirst
  refine ⟨by simp only [tasksReducer]; exact key,
          by simp only [tasksReducer]; exact key, ?_, ?_⟩
  · intro x hx
    simp only [tasksReducer] at hx
    have := List.of_mem_filter hx
    simpa using this
  · intro x hx hne
    simp only [tasksReducer]
    exact List.mem_filter.mpr ⟨hx, by simpa using hne⟩

/-- Witness for claim C9: on a list whose two entries both carry id
"a", the update replaces only the first entry (the second duplicate is
untouched), and the delete leaves no entry with id "a" — here it
empties the list, removing both duplicates, not just one. -/
theorem claim_C9_duplicate_ids_witness :
    ((tasksReducer ⟨[sampleTask "a" false, sampleTask "a" true], false, none⟩
        (Action.updateTaskFulfilled (sampleTask "a" true))).tasks =
          [] ++ sampleTask "a" true :: [sampleTask "a" true] ∧
     (tasksReducer ⟨[sampleTask "a" false, sampleTask "a" true], false, none⟩
        (Action.toggleTaskFulfilled (sampleTask "a" true))).tasks =
          [] ++ sampleTask "a" true :: [sampleTask "a" true] ∧
     (∀ x ∈ (tasksReducer ⟨[sampleTask "a" false, sampleTask "a" true], false, none⟩
        (Action.deleteTaskFulfilled "a")).tasks, x._id ≠ "a") ∧
     (∀ x ∈ (⟨[sampleTask "a" false, sampleTask "a" true], false, none⟩ : SliceState).tasks,
        x._id ≠ "a" →
        x ∈ (tasksReducer ⟨[sampleTask "a" false, sampleTask "a" true], false, none⟩
          (Action.deleteTaskFulfilled "a")).tasks)) ∧
    (tasksReducer ⟨[sampleTask "a" false, sampleTask "a" true], false, none⟩
        (Action.deleteTaskFulfilled "a")).tasks = [] :=
  ⟨claim_C9_duplicate_ids ⟨[sampleTask "a" false, sampleTask "a" true], false, none⟩
      (sampleTask "a" true) [] (sampleTask "a" false) [sampleTask "a" true] "a"
      (by decide) (by decide) (by decide),
   by decide⟩

/-- Counterexample to claim C4 as stated: the `message` field can be
present in the server response with value `""`; the thunk computes
`message || default` and JS `||` treats the empty string as falsy, so
the rejected value is the default, not the present message field. -/
theorem claim_C4_error_extraction_counterexample :
    addTaskRejectValue (some "") ≠ "" ∧
    addTaskRejectValue (some "") = "Failed to add task" := by
  constructor
  · decide
  · rfl

/-- Claim C4 (amended): the rejected outcome carries the server
response's `message` field when that field is present AND non-empty;
when the field is absent, or present but equal to the empty string, it
carries the fixed per-operation default; the rejected reducer stores
exactly that string in the error slot. -/
theorem claim_C4_error_extraction (m : String) (st : SliceState) (v : String)
    (hm : m ≠ "") :
    (fetchTasksRejectValue (some m) = m ∧
     addTaskRejectValue (some m) = m ∧
     updateTaskRejectValue (some m) = m ∧
     toggleTaskRejectValue (some m) = m ∧
     deleteTaskRejectValue (some m) = m) ∧
    (fetchTasksRejectValue none = "Failed to fetch tasks" ∧
     addTaskRejectValue none = "Failed to add task" ∧
     updateTaskRejectValue none = "Failed to update task" ∧
     toggleTaskRejectValue none = "Failed to toggle task" ∧
     deleteTaskRejectValue none = "Failed to delete task") ∧
    (fetchTasksRejectValue (some "") = "Failed to fetch tasks" ∧
     addTaskRejectValue (some "") = "Failed to add task" ∧
     updateTaskRejectValue (some "") = "Failed to update task" ∧
     toggleTaskRejectValue (some "") = "Failed to toggle task" ∧
     deleteTaskRejectValue (some "") = "Failed to delete task") ∧
    ((tasksReducer st (Action.fetchTasksRejected v)).error = some v ∧
     (tasksReducer st (Action.addTaskRejected v)).error = some v ∧
     (tasksReducer st (Action.updateTaskRejected v)).error = some v ∧
     (tasksReducer st (Action.toggleTaskRejected v)).error = some v ∧
     (tasksReducer st (Action.deleteTaskRejected v)).error = some v) := by
  refine ⟨?_, ⟨rfl, rfl, rfl, rfl, rfl⟩, ⟨rfl, rfl, rfl, rfl, rfl⟩,
          rfl, rfl, rfl, rfl, rfl⟩
  simp [fetchTasksRejectValue, addTaskRejectValue, updateTaskRejectValue,
        toggleTaskRejectValue, deleteTaskRejectValue, jsOrDefault, hm]

/-- Witness for amended claim C4 at the spec's own scenario: a server
body `{message: "Validation error"}` is carried through verbatim. -/
theorem claim_C4_error_extraction_witness :
    (fetchTasksRejectValue (some "Validation error") = "Validation error" ∧
     addTaskRejectValue (some "Validation error") = "Validation error" ∧
     updateTaskRejectValue (some "Validation error") = "Validation error" ∧
     toggleTaskRejectValue (some "Validation error") = "Validation error" ∧
     deleteTaskRejectValue (some "Validation error") = "Validation error") ∧
    (fetchTasksRejectValue none = "Failed to fetch tasks" ∧
     addTaskRejectValue none = "Failed to add task" ∧
     updateTaskRejectValue none = "Failed to update task" ∧
     toggleTaskRejectValue none = "Failed to toggle task" ∧
     deleteTaskRejectValue none = "Failed to delete task") ∧
    (fetchTasksRejectValue (some "") = "Failed to fetch tasks" ∧
     addTaskRejectValue (some "") = "Failed to add task" ∧
     updateTaskRejectValue (some "") = "Failed to update task" ∧
     toggleTaskRejectValue (some "") = "Failed to toggle task" ∧
     deleteTaskRejectValue (some "") = "Failed to delete task") ∧
    ((tasksReducer initialState (Action.fetchTasksRejected "Validation error")).error =
       some "Validation error" ∧
     (tasksReducer initialState (Action.addTaskRejected "Validation error")).error =
       some "Validation error" ∧
     (tasksReducer initialState (Action.updateTaskRejected "Validation error")).error =
       some "Validation error" ∧
     (tasksReducer initialState (Action.toggleTaskRejected "Validation error")).error =
       some "Validation error" ∧
     (tasksReducer initialState (Action.deleteTaskRejected "Validation error")).error =
       some "Validation error") :=
  claim_C4_error_extraction "Validation error" initialState "Validation error"
    (by decide)

/-- Counterexample to claim C7 as stated: at the state whose error slot
holds the empty string (an error IS present), the view renders the
empty-state message, not the error text — `if (error)` is a JS
truthiness test and `""` is falsy. -/
theorem claim_C7_list_view_counterexample :
    ({ tasks := [], loading := false, error := some "" } : SliceState).error ≠ none ∧
    renderTaskList { tasks := [], loading := false, error := some "" } =
      RenderResult.emptyState := by
  exact ⟨by simp, rfl⟩

/-- Claim C7 (amended): the list view renders exactly one of four
outcomes, decided in priority order: loading → spinner; else a
non-empty error present → the error text; else (no error, or the
degenerate empty-string error) an empty list → the empty-state message;
else the partition of the list by the completion flag, a titled section
per non-empty group, pending first, each title carrying the group
count. -/
theorem claim_C7_list_view_states (st : SliceState) :
    (st.loading = true → renderTaskList st = RenderResult.spinner) ∧
    (∀ e, st.loading = false → st.error = some e → e ≠ "" →
      renderTaskList st = RenderResult.errorText e) ∧
    (st.loading = false → (st.error = none ∨ st.error = some "") → st.tasks = [] →
      renderTaskList st = RenderResult.emptyState) ∧
    (st.loading = false → (st.error = none ∨ st.error = some "") → st.tasks ≠ [] →
      renderTaskList st = RenderResult.sections
        ((if (st.tasks.filter (fun task => !task.completed)).length > 0 then
            [{ title := "Pending Tasks (" ++
                 toString (st.tasks.filter (fun task => !task.completed)).length ++ ")"
               rows := st.tasks.filter (fun task => !task.completed) }]
          else []) ++
         (if (st.tasks.filter (fun task => task.completed)).length > 0 then
            [{ title := "Completed Tasks (" ++
                 toString (st.tasks.filter (fun task => task.completed)).length ++ ")"
               rows := st.tasks.filter (fun task => task.completed) }]
          else []))) := by
  refine ⟨?_, ?_, ?_, ?_⟩
  · intro h
    simp [renderTaskList, h]
  · intro e hl he hne
    simp [renderTaskList, hl, he, hne]
  · intro hl herr ht
    rcases herr with h | h <;> simp [renderTaskList, renderTaskBody, hl, h, ht]
  · intro hl herr hne
    rcases herr with h | h <;>
      simp [renderTaskList, renderTaskBody, hl, h, hne, List.length_eq_zero]

/-- Witness for amended claim C7, covering all four outcomes; the last
is the spec's scenario: 3 tasks, 2 incomplete and 1 complete, rendering
"Pending Tasks (2)" then "Completed Tasks (1)". -/
theorem claim_C7_list_view_states_witness :
    renderTaskList ⟨[], true, none⟩ = RenderResult.spinner ∧
    renderTaskList ⟨[], false, some "boom"⟩ = RenderResult.errorText "boom" ∧
    renderTaskList initialState = RenderResult.emptyState ∧
    renderTaskList ⟨[sampleTask "a" false, sampleTask "b" false, sampleTask "c" true],
        false, none⟩ =
      RenderResult.sections
        [{ title := "Pending Tasks (2)", rows := [sampleTask "a" false, sampleTask "b" false] },
         { title := "Completed Tasks (1)", rows := [sampleTask "c" true] }] :=
  ⟨(claim_C7_list_view_states ⟨[], true, none⟩).1 rfl,
   (claim_C7_list_view_states ⟨[], false, some "boom"⟩).2.1 "boom" rfl rfl (by decide),
   (claim_C7_list_view_states initialState).2.2.1 rfl (Or.inl rfl) rfl,
   by
     rw [(claim_C7_list_view_states
           ⟨[sampleTask "a" false, sampleTask "b" false, sampleTask "c" true],
            false, none⟩).2.2.2 rfl (Or.inl rfl) (by decide)]
     decide⟩

/-- Claim C10: every fulfilled and every rejected transition of each of
the five asynchronous operations unconditionally sets the loading flag
to `false`. -/
theorem claim_C10_completions_reset_loading (st : SliceState) (ts : List Task)
    (p : Task) (tid msg : String) :
    (tasksReducer st (Action.fetchTasksFulfilled ts)).loading = false ∧
    (tasksReducer st (Action.fetchTasksRejected msg)).loading = false ∧
    (tasksReducer st (Action.addTaskFulfilled p)).loading = false ∧
    (tasksReducer st (Action.addTaskRejected msg)).loading = false ∧
    (tasksReducer st (Action.updateTaskFulfilled p)).loading = false ∧
    (tasksReducer st (Action.updateTaskRejected msg)).loading = false ∧
    (tasksReducer st (Action.toggleTaskFulfilled p)).loading = false ∧
    (tasksReducer st (Action.toggleTaskRejected msg)).loading = false ∧
    (tasksReducer st (Action.deleteTaskFulfilled tid)).loading = false ∧
    (tasksReducer st (Action.deleteTaskRejected msg)).loading = false :=
  ⟨rfl, rfl, rfl, rfl, rfl, rfl, rfl, rfl, rfl, rfl⟩

end K8Todo
